import Mathlib

set_option autoImplicit false

/-!
Shallow embedding of the p5.js WebGL renderer subsystem
(src/webgl material.js + p5.RendererGL body, src/webgl/light.js,
src/image/pixels.js).  Numeric values are modelled as rationals;
irrational inputs such as tangents of angles are threaded through as
explicit function arguments.  Stateful JavaScript code becomes explicit
state passing on a renderer record; the module-level model-view matrix
stack of p5.RendererGL is passed alongside the renderer record, since it
is shared by all renderer instances.  Fallible code returns Except.
-/

namespace P5

/-- 4x4 matrices over the rationals, indexed row then column. -/
abbrev Mat4 := Fin 4 → Fin 4 → ℚ

/-- The identity matrix, p5.Matrix.identity. -/
def mat4Id : Mat4 := fun i j => if i = j then 1 else 0

/-- Matrix product, row-by-column. -/
def mat4Mul (a b : Mat4) : Mat4 :=
  fun i j => Finset.sum Finset.univ (fun k => a i k * b k j)

/-- Modelled from the spec: p5.Matrix (required by p5.RendererGL but not
under src/).  Homogeneous translation matrix. -/
def mat4Translation (x y z : ℚ) : Mat4 :=
  ![![1, 0, 0, x], ![0, 1, 0, y], ![0, 0, 1, z], ![0, 0, 0, 1]]

/-- Modelled from the spec: p5.Matrix (not under src/).  Scaling matrix. -/
def mat4Scaling (x y z : ℚ) : Mat4 :=
  ![![x, 0, 0, 0], ![0, y, 0, 0], ![0, 0, z, 0], ![0, 0, 0, 1]]

/-- Modelled from the spec: p5.Matrix (not under src/).  Axis-angle
rotation matrix; the cosine c and sine s of the angle are supplied as
values because they are irrational over the rationals, and the axis
(ax, ay, az) is taken as already normalized. -/
def mat4Rotation (c s ax ay az : ℚ) : Mat4 :=
  let t := 1 - c
  ![![t * ax * ax + c, t * ax * ay - s * az, t * ax * az + s * ay, 0],
    ![t * ax * ay + s * az, t * ay * ay + c, t * ay * az - s * ax, 0],
    ![t * ax * az - s * ay, t * ay * az + s * ax, t * az * az + c, 0],
    ![0, 0, 0, 1]]

/-- Modelled from the spec: p5.Matrix.prototype.translate composes the
current matrix with a translation. -/
def mat4Translate (m : Mat4) (x y z : ℚ) : Mat4 :=
  mat4Mul m (mat4Translation x y z)

/-- Modelled from the spec: p5.Matrix.prototype.scale. -/
def mat4Scale (m : Mat4) (x y z : ℚ) : Mat4 :=
  mat4Mul m (mat4Scaling x y z)

/-- Modelled from the spec: p5.Matrix.prototype.rotate, with the cosine
and sine of the angle passed as values. -/
def mat4Rotate (m : Mat4) (c s ax ay az : ℚ) : Mat4 :=
  mat4Mul m (mat4Rotation c s ax ay az)

/-- Modelled from the spec: p5.Matrix.prototype.perspective overwrites
the matrix with the standard frustum projection; the tangent function is
supplied abstractly (tanQ) because tangents are irrational over the
rationals. -/
def mat4Perspective (tanQ : ℚ → ℚ) (fovy aspect near far : ℚ) : Mat4 :=
  let f := 1 / tanQ (fovy / 2)
  ![![f / aspect, 0, 0, 0],
    ![0, f, 0, 0],
    ![0, 0, (far + near) / (near - far), 2 * far * near / (near - far)],
    ![0, 0, -1, 0]]

/-- Modelled from the spec: p5.Matrix.prototype.ortho overwrites the
matrix with the standard orthographic projection. -/
def mat4Ortho (left right bottom top near far : ℚ) : Mat4 :=
  ![![2 / (right - left), 0, 0, -(right + left) / (right - left)],
    ![0, 2 / (top - bottom), 0, -(top + bottom) / (top - bottom)],
    ![0, 0, -2 / (far - near), -(far + near) / (far - near)],
    ![0, 0, 0, 1]]

/-- Dynamic JavaScript values, as far as the embedded code inspects
them: numbers, strings, booleans, arrays, plain objects with named
fields, undefined and null. -/
inductive JSVal where
  | num (v : ℚ)
  | str (s : String)
  | boolean (b : Bool)
  | arr (elems : List JSVal)
  | obj (fields : List (String × JSVal))
  | undefinedVal
  | nullv

/-- typeof v === number. -/
def JSVal.isNum : JSVal → Bool
  | .num _ => true
  | _ => false

/-- Errors the embedded JavaScript can raise. -/
inductive JSError where
  | typeError
  deriving DecidableEq

/-- Property access v[key]: throws TypeError on undefined and null,
returns the field on objects (undefined when absent), and undefined on
every other value. -/
def getMember : JSVal → String → Except JSError JSVal
  | .undefinedVal, _ => .error .typeError
  | .nullv, _ => .error .typeError
  | .obj fields, key => .ok ((fields.lookup key).getD .undefinedVal)
  | _, _ => .ok .undefinedVal

/-- args[i] with JavaScript semantics: out-of-range indices give
undefined. -/
def jsIndex (args : List JSVal) (i : ℤ) : JSVal :=
  if 0 ≤ i then args.getD i.toNat .undefinedVal else .undefinedVal

/-- args[args.length - 1]. -/
def jsLast (args : List JSVal) : JSVal :=
  jsIndex args ((args.length : ℤ) - 1)

/-- true when e is Except.ok. -/
def exceptIsOk {ε α : Type} : Except ε α → Bool
  | .ok _ => true
  | .error _ => false

/-- pat is a leading piece of the character list. -/
def beginsWith : List Char → List Char → Bool
  | [], _ => true
  | _ :: _, [] => false
  | p :: ps, c :: cs => (p == c) && beginsWith ps cs

/-- pat occurs somewhere in the character list. -/
def occursIn (pat : List Char) : List Char → Bool
  | [] => beginsWith pat []
  | c :: cs => beginsWith pat (c :: cs) || occursIn pat cs

/-- The characters before the first occurrence of pat. -/
def takeUntilPat (pat : List Char) : List Char → List Char
  | [] => []
  | c :: cs => if beginsWith pat (c :: cs) then [] else c :: takeUntilPat pat cs

/-- JavaScript s.substring(0, s.indexOf(pat)): the text before the
first occurrence of pat; when pat does not occur, indexOf is -1 and the
substring is empty. -/
def jsSubstringBeforeFirst (s pat : String) : String :=
  if occursIn pat.data s.data then ⟨takeUntilPat pat.data s.data⟩ else ""

/-- The key under which _initShaders stores a uniform: uniforms whose
size is greater than 1 are arrays, whose name getActiveUniform reports
as someUniform[0]; the trailing index suffix is trimmed off so lookups
use the bare name (uniformName.substring(0, uniformName.indexOf with
the [0] pattern)). -/
def uniformKeyOf (u : String × ℕ) : String :=
  if u.2 > 1 then jsSubstringBeforeFirst u.1 "[0]" else u.1

/-- A compiled, linked and introspected shader program: the cache entry
built by p5.RendererGL.prototype._initShaders.  The attribute and
uniform maps are modelled by the lists of names they are keyed by
(array uniform names already stripped of their [0] suffix). -/
structure ShaderProgram where
  vertId : String
  fragId : String
  attributes : List String
  uniforms : List String
  deriving DecidableEq

/-- External behavior of the WebGL context during shader construction:
whether each stage compiles, whether the link succeeds, the info log
text, and the introspection results; getActiveUniform yields each
uniform once as a name and size pair, an array uniform appearing under
its first element name someUniform[0] with its array size.  These are
inputs to the code under verification, not part of it. -/
structure GLSpec where
  vertCompiles : String → Bool
  fragCompiles : String → Bool
  linkOk : String → String → Bool
  shaderInfoLog : String → String
  introspectAttributes : String → String → List String
  introspectUniforms : String → String → List (String × ℕ)

/-- The program object the introspection loop of _initShaders produces
for a given id pair: the uniform map is keyed per uniformKeyOf, with
the trailing [0] stripped from every array uniform name, so an indexed
name like someUniform[0] is not among the keys of a program whose
uniforms come from getActiveUniform. -/
def programOf (gl : GLSpec) (vertId fragId : String) : ShaderProgram :=
  { vertId := vertId
    fragId := fragId
    attributes := gl.introspectAttributes vertId fragId
    uniforms := (gl.introspectUniforms vertId fragId).map uniformKeyOf }

/-- The _curCamera field: null before the default camera is installed,
then the string default, or custom once the caller configures one. -/
inductive CameraState where
  | unset
  | defaultCam
  | custom
  deriving DecidableEq

/-- The drawMode field: the strings fill, wireframe and texture. -/
inductive DrawMode where
  | fillMode
  | wireframe
  | textureMode
  deriving DecidableEq

/-- A resolved color as the external color resolver returns it: the
_array field, a 4-component normalized tuple whose last component is
the alpha. -/
structure ColorArr where
  r : ℚ
  g : ℚ
  b : ℚ
  a : ℚ
  deriving DecidableEq

/-- The color as a 3-element array, color._array.slice(0, 3). -/
def ColorArr.toJS3 (c : ColorArr) : JSVal :=
  .arr [.num c.r, .num c.g, .num c.b]

/-- The color as a 4-element array. -/
def ColorArr.toJS4 (c : ColorArr) : JSVal :=
  .arr [.num c.r, .num c.g, .num c.b, .num c.a]

/-- Clamp a channel value into the 0..255 range. -/
def clamp255 (v : ℚ) : ℚ := if v < 0 then 0 else if 255 < v then 255 else v

/-- Modelled from the spec: the external color resolver (spec section 6,
consumed as this._pInst.color), restricted to the numeric argument
shapes the claims exercise: (v1, v2, v3, a), (v1, v2, v3), (gray, a)
and (gray); channels are clamped into 0..255 and normalized, default
alpha 255. -/
def resolveColor (v1 : ℚ) (v2 v3 a : Option ℚ) : ColorArr :=
  match v2, v3 with
  | some g, some b =>
      ⟨clamp255 v1 / 255, clamp255 g / 255, clamp255 b / 255,
       clamp255 (a.getD 255) / 255⟩
  | _, _ =>
      ⟨clamp255 v1 / 255, clamp255 v1 / 255, clamp255 v1 / 255,
       clamp255 (v2.getD 255) / 255⟩

/-- The color resolver applied to the three leading light-call
arguments, color.apply(pInst, [v1, v2, v3]). -/
def resolveColorJS3 (v1 v2 v3 : JSVal) : ColorArr :=
  match v1, v2, v3 with
  | .num x, .num y, .num z => resolveColor x (some y) (some z) none
  | .num x, _, _ => resolveColor x none none none
  | _, _, _ => ⟨0, 0, 0, 1⟩

/-- The p5.RendererGL instance state, from the constructor in the
RendererGL body, together with the relevant observable WebGL context
state it drives (blend enable, depth mask, the uniform store keyed by
uniform name, and logs of compileShader, linkProgram and alert calls).
The uNMatrix, geometry hash and immediate-mode buffers are omitted as
no claim mentions them. -/
structure RendererGL where
  width : ℚ
  height : ℚ
  uMVMatrix : Mat4
  uPMatrix : Mat4
  ambientLightCount : ℕ
  directionalLightCount : ℕ
  pointLightCount : ℕ
  curCamera : CameraState
  curFillColor : ColorArr
  curStrokeColor : ColorArr
  pointSize : ℚ
  isImmediateDrawing : Bool
  drawMode : Option DrawMode
  mHash : List (String × Option ShaderProgram)
  curShaderId : Option String
  curShader : Option ShaderProgram
  newShader : Bool
  depthMaskOn : Bool
  blendEnabled : Bool
  uniformStore : List (String × JSVal)
  compileLog : List String
  linkLog : List String
  alerts : List String

/-- The renderer as the p5.RendererGL constructor builds it (drawMode,
curShaderId and newShader start undefined; the context starts with the
GL defaults of blending off and depth writes on). -/
def RendererGL.init (w h : ℚ) : RendererGL :=
  { width := w
    height := h
    uMVMatrix := mat4Id
    uPMatrix := mat4Id
    ambientLightCount := 0
    directionalLightCount := 0
    pointLightCount := 0
    curCamera := .unset
    curFillColor := ⟨1/2, 1/2, 1/2, 1⟩
    curStrokeColor := ⟨1/2, 1/2, 1/2, 1⟩
    pointSize := 5
    isImmediateDrawing := false
    drawMode := none
    mHash := []
    curShaderId := none
    curShader := none
    newShader := false
    depthMaskOn := true
    blendEnabled := false
    uniformStore := []
    compileLog := []
    linkLog := []
    alerts := [] }

/-- Errors p5.RendererGL raises. -/
inductive GLError where
  | matrixStackUnderflow
  deriving DecidableEq

/-- p5.RendererGL.prototype.push: appends a copy of the current
model-view matrix to the module-level uMVMatrixStack (modelled with the
top of the stack at the head).  The stack is shared by every renderer
instance, so it is passed alongside the instance. -/
def RendererGL.push (stack : List Mat4) (r : RendererGL) :
    List Mat4 × RendererGL :=
  (r.uMVMatrix :: stack, r)

/-- p5.RendererGL.prototype.pop: throws Error with message Invalid
popMatrix! when the shared stack is empty, otherwise removes the most
recent entry and installs it as the model-view matrix. -/
def RendererGL.pop (stack : List Mat4) (r : RendererGL) :
    Except GLError (List Mat4 × RendererGL) :=
  match stack with
  | [] => .error .matrixStackUnderflow
  | m :: rest => .ok (rest, { r with uMVMatrix := m })

/-- p5.RendererGL.prototype.translate: note the internal negation of
the y component, this.uMVMatrix.translate([x, -y, z]). -/
def RendererGL.translate (r : RendererGL) (x y z : ℚ) : RendererGL :=
  { r with uMVMatrix := mat4Translate r.uMVMatrix x (-y) z }

/-- p5.RendererGL.prototype.scale. -/
def RendererGL.scale (r : RendererGL) (x y z : ℚ) : RendererGL :=
  { r with uMVMatrix := mat4Scale r.uMVMatrix x y z }

/-- p5.RendererGL.prototype.rotate, with the cosine and sine of the
angle passed as values. -/
def RendererGL.rotate (r : RendererGL) (c s ax ay az : ℚ) : RendererGL :=
  { r with uMVMatrix := mat4Rotate r.uMVMatrix c s ax ay az }

/-- One transform call made between push and pop. -/
inductive TransformCall where
  | translate (x y z : ℚ)
  | scale (x y z : ℚ)
  | rotate (c s ax ay az : ℚ)

/-- Dispatch of one transform call to the renderer. -/
def applyTransform (r : RendererGL) : TransformCall → RendererGL
  | .translate x y z => r.translate x y z
  | .scale x y z => r.scale x y z
  | .rotate c s ax ay az => r.rotate c s ax ay az

/-- A sequence of transform calls, applied in order. -/
def applyTransforms (r : RendererGL) (calls : List TransformCall) :
    RendererGL :=
  calls.foldl applyTransform r

/-- Assignment into a string-keyed hash, this.mHash[k] = v or a uniform
write: the new binding shadows any previous one. -/
def storeSet (store : List (String × JSVal)) (k : String) (v : JSVal) :
    List (String × JSVal) :=
  (k, v) :: store.filter (fun p => p.1 != k)

/-- p5.RendererGL.prototype.materialInHash: this.mHash[mId] !==
undefined.  A key holding null (a failed build) still counts as
present. -/
def RendererGL.materialInHash (r : RendererGL) (mId : String) : Bool :=
  (r.mHash.lookup mId).isSome

/-- p5.RendererGL.prototype._initShaders: compiles the vertex stage (on
failure, alerts with the info log and returns null), compiles the
fragment stage (same), links (on failure, alerts but carries on), then
introspects attributes and uniforms and returns the program; the
introspection, including the stripping of the trailing [0] from every
array uniform name so that the map is keyed by the bare name, is
programOf.  The compileShader and linkProgram calls are logged so that
recompilation is observable.  The _createEmptyTexture side call touches
no state a claim mentions and is omitted. -/
def RendererGL._initShaders (gl : GLSpec) (r : RendererGL)
    (vertId fragId : String) : RendererGL × Option ShaderProgram :=
  let r1 := { r with compileLog := r.compileLog ++ [vertId] }
  if gl.vertCompiles vertId = false then
    ({ r1 with alerts := r1.alerts ++
        ["Yikes! An error occurred compiling the shaders:"
          ++ gl.shaderInfoLog vertId] }, none)
  else
    let r2 := { r1 with compileLog := r1.compileLog ++ [fragId] }
    if gl.fragCompiles fragId = false then
      ({ r2 with alerts := r2.alerts ++
          ["Darn! An error occurred compiling the shaders:"
            ++ gl.shaderInfoLog fragId] }, none)
    else
      let r3 := { r2 with linkLog := r2.linkLog ++ [vertId ++ "|" ++ fragId] }
      let r4 :=
        if gl.linkOk vertId fragId = false then
          { r3 with alerts := r3.alerts ++ ["Snap! Error linking shader program"] }
        else r3
      (r4, some (programOf gl vertId fragId))

/-- p5.RendererGL.prototype._getShader: builds the composite key
vertId|fragId; when it is not yet in the material hash, runs
_initShaders and stores the result (even a null result of a failed
build) under the key; records the key as curShaderId and returns the
hash entry. -/
def RendererGL._getShader (gl : GLSpec) (r : RendererGL)
    (vertId fragId : String) : RendererGL × Option ShaderProgram :=
  let mId := vertId ++ "|" ++ fragId
  let r1 :=
    if r.materialInHash mId then r
    else
      let p := RendererGL._initShaders gl r vertId fragId
      { p.1 with mHash := (mId, p.2) :: p.1.mHash, newShader := true }
  let r2 := { r1 with curShaderId := some mId }
  (r2, (r2.mHash.lookup mId).getD none)

/-- p5.RendererGL.prototype._useShader: no state change when the
program is already current, otherwise gl.useProgram and curShader is
updated. -/
def RendererGL._useShader (r : RendererGL) (prog : Option ShaderProgram) :
    RendererGL :=
  if prog = r.curShader then r else { r with curShader := prog }

/-- p5.RendererGL.prototype._setUniform: a silent no-op when no shader
is current or when the current shader does not declare the uniform
name; otherwise stores the data under the name (the per-type gl.uniform
dispatch all amounts to writing the supplied data to the named
uniform). -/
def RendererGL._setUniform (r : RendererGL) (uniformName : String)
    (data : JSVal) : RendererGL :=
  match r.curShader with
  | none => r
  | some sh =>
    if uniformName ∈ sh.uniforms then
      { r with uniformStore := storeSet r.uniformStore uniformName data }
    else r

/-- p5.RendererGL.prototype._applyColorBlend: resolves the color, then
when the normalized alpha (the last component of the color array) is
below 1 disables depth writes and enables blending (gl.FUNC_ADD with
SRC_ALPHA, ONE_MINUS_SRC_ALPHA, collapsed here into the blend-enable
bit), and otherwise enables depth writes and disables blending. -/
def RendererGL._applyColorBlend (r : RendererGL) (v1 : ℚ)
    (v2 v3 a : Option ℚ) : RendererGL × ColorArr :=
  let colors := resolveColor v1 v2 v3 a
  if colors.a < 1 then
    ({ r with depthMaskOn := false, blendEnabled := true }, colors)
  else
    ({ r with depthMaskOn := true, blendEnabled := false }, colors)

/-- p5.RendererGL.prototype.fill: applies the color blend branch,
records the fill color, sets the draw mode to fill, binds the
immediate- or retained-mode shader, and in retained mode passes the
color as the uMaterialColor uniform. -/
def RendererGL.fill (gl : GLSpec) (r : RendererGL) (v1 : ℚ)
    (v2 v3 a : Option ℚ) : RendererGL :=
  let p := r._applyColorBlend v1 v2 v3 a
  let r1 := { p.1 with curFillColor := p.2, drawMode := some .fillMode }
  if r1.isImmediateDrawing then
    let q := r1._getShader gl "immediateVert" "vertexColorFrag"
    q.1._useShader q.2
  else
    let q := r1._getShader gl "normalVert" "basicFrag"
    let r2 := q.1._useShader q.2
    r2._setUniform "uMaterialColor" p.2.toJS4

/-- JavaScript v || d for optional numeric arguments: undefined and 0
are falsy and select the default. -/
def jsOr (v : Option ℚ) (d : ℚ) : ℚ :=
  match v with
  | some x => if x = 0 then d else x
  | none => d

/-- The projection _setDefaultCamera installs: perspective with a 60
degree field of view, the aspect ratio width / height, and near and far
derived from the default camera distance cameraZ =
(height / 2) / tan(pi * 30 / 180). -/
def defaultCameraProjection (tanQ : ℚ → ℚ) (piQ w h : ℚ) : Mat4 :=
  let cameraZ := (h / 2) / tanQ (piQ * 30 / 180)
  mat4Perspective tanQ (60 / 180 * piQ) (w / h) (cameraZ * (1/10))
    (cameraZ * 10)

/-- p5.RendererGL.prototype._setDefaultCamera: when no camera was set
(_curCamera === null), installs the default perspective projection and
marks the camera as default. -/
def RendererGL._setDefaultCamera (tanQ : ℚ → ℚ) (piQ : ℚ)
    (r : RendererGL) : RendererGL :=
  if r.curCamera = .unset then
    { r with uPMatrix := defaultCameraProjection tanQ piQ r.width r.height
             curCamera := .defaultCam }
  else r

/-- p5.RendererGL.prototype.resize: updates the dimensions (the
p5.Renderer base resize, which is not under src/, is modelled from the
spec as updating the viewport dimensions) and, exactly when _curCamera
=== default, clears it to null and reruns _setDefaultCamera so the
default projection is recomputed with the new aspect ratio. -/
def RendererGL.resize (tanQ : ℚ → ℚ) (piQ : ℚ) (r : RendererGL)
    (w h : ℚ) : RendererGL :=
  let r1 := { r with width := w, height := h }
  if r1.curCamera = .defaultCam then
    RendererGL._setDefaultCamera tanQ piQ { r1 with curCamera := .unset }
  else r1

/-- p5.prototype.perspective (in pixels.js): fills missing arguments
with the documented defaults via ||, overwrites uPMatrix with a fresh
perspective matrix, and marks the camera as custom. -/
def perspective (tanQ : ℚ → ℚ) (piQ : ℚ) (r : RendererGL)
    (fovy aspect near far : Option ℚ) : RendererGL :=
  let fovyV := jsOr fovy (60 / 180 * piQ)
  let aspectV := jsOr aspect (r.width / r.height)
  let nearV := jsOr near ((r.height / 2) / tanQ (fovyV / 2) * (1/10))
  let farV := jsOr far ((r.height / 2) / tanQ (fovyV / 2) * 10)
  { r with uPMatrix := mat4Perspective tanQ fovyV aspectV nearV farV
           curCamera := .custom }

/-- p5.prototype.ortho (in pixels.js): fills missing arguments with the
documented defaults via ||, overwrites uPMatrix with a fresh
orthographic matrix, and marks the camera as custom. -/
def ortho (r : RendererGL) (left right bottom top near far : Option ℚ) :
    RendererGL :=
  let leftV := jsOr left (-r.width / 2)
  let rightV := jsOr right (r.width / 2)
  let bottomV := jsOr bottom (-r.height / 2)
  let topV := jsOr top (r.height / 2)
  let nearV := jsOr near 0
  let farV := jsOr far (max r.width r.height)
  { r with uPMatrix := mat4Ortho leftV rightV bottomV topV nearV farV
           curCamera := .custom }

/-- p5.RendererGL.prototype._update, the per-render-pass reset: a fresh
model-view matrix translated to the default camera distance, and all
three light counters zeroed. -/
def RendererGL._update (tanQ : ℚ → ℚ) (piQ : ℚ) (r : RendererGL) :
    RendererGL :=
  let r1 := { r with uMVMatrix := mat4Id }
  let r2 := r1.translate 0 0 (-((r1.height / 2) / tanQ (piQ * 30 / 180)))
  { r2 with ambientLightCount := 0
            directionalLightCount := 0
            pointLightCount := 0 }

/-- p5.prototype.ambientLight: binds the light shader, resolves the
color from the leading arguments, writes the first three components to
the hard-coded array slot uAmbientColor[0], sets a fallback material
color, increments ambientLightCount, and pushes the new count and the
lighting-enabled flag as uniforms. -/
def ambientLight (gl : GLSpec) (r : RendererGL) (args : List JSVal) :
    RendererGL :=
  let p := r._getShader gl "lightVert" "lightTextureFrag"
  let r1 := p.1._useShader p.2
  let colors := resolveColorJS3 (jsIndex args 0) (jsIndex args 1)
    (jsIndex args 2)
  let r2 := r1._setUniform "uAmbientColor[0]" colors.toJS3
  let r3 := r2._setUniform "uMaterialColor"
    (JSVal.arr [.num 1, .num 1, .num 1, .num 1])
  let r4 := { r3 with ambientLightCount := r3.ambientLightCount + 1 }
  let r5 := r4._setUniform "uAmbientLightCount"
    (.num (r4.ambientLightCount : ℚ))
  r5._setUniform "uUseLighting" (.boolean true)

/-- The direction-or-position resolution shared by directionalLight and
pointLight: when the last argument is a number the last three arguments
are taken as x, y, z (JavaScript indexing, so missing positions read as
undefined); otherwise the x, y and z members of the last argument are
read, which throws a TypeError only when that argument is null or
undefined and silently yields undefined members on anything else. -/
def resolveXYZ (args : List JSVal) :
    Except JSError (JSVal × JSVal × JSVal) :=
  let n : ℤ := (args.length : ℤ)
  if (jsLast args).isNum then
    .ok (jsIndex args (n - 3), jsIndex args (n - 2), jsIndex args (n - 1))
  else
    match getMember (jsLast args) "x", getMember (jsLast args) "y",
        getMember (jsLast args) "z" with
    | .ok x, .ok y, .ok z => .ok (x, y, z)
    | .error e, _, _ => .error e
    | .ok _, .error e, _ => .error e
    | .ok _, .ok _, .error e => .error e

/-- p5.prototype.directionalLight: binds the light shader, resolves the
color from the first three arguments, writes it to the hard-coded slot
uDirectionalColor[0], resolves the direction (possibly throwing), then
writes the direction to the hard-coded slot uLightingDirection[0],
increments directionalLightCount and pushes the count and the
lighting-enabled flag. -/
def directionalLight (gl : GLSpec) (r : RendererGL) (args : List JSVal) :
    Except JSError RendererGL :=
  let p := r._getShader gl "lightVert" "lightTextureFrag"
  let r1 := p.1._useShader p.2
  let colors := resolveColorJS3 (jsIndex args 0) (jsIndex args 1)
    (jsIndex args 2)
  let r2 := r1._setUniform "uDirectionalColor[0]" colors.toJS3
  match resolveXYZ args with
  | .error e => .error e
  | .ok (x, y, z) =>
    let r3 := r2._setUniform "uMaterialColor"
      (JSVal.arr [.num 1, .num 1, .num 1, .num 1])
    let r4 := r3._setUniform "uLightingDirection[0]" (.arr [x, y, z])
    let r5 := { r4 with
      directionalLightCount := r4.directionalLightCount + 1 }
    let r6 := r5._setUniform "uDirectionalLightCount"
      (.num (r5.directionalLightCount : ℚ))
    .ok (r6._setUniform "uUseLighting" (.boolean true))

/-- p5.prototype.pointLight: the same shape as directionalLight with
the position slots uPointLightColor[0] and uPointLightLocation[0] and
the pointLightCount counter. -/
def pointLight (gl : GLSpec) (r : RendererGL) (args : List JSVal) :
    Except JSError RendererGL :=
  let p := r._getShader gl "lightVert" "lightTextureFrag"
  let r1 := p.1._useShader p.2
  let colors := resolveColorJS3 (jsIndex args 0) (jsIndex args 1)
    (jsIndex args 2)
  let r2 := r1._setUniform "uPointLightColor[0]" colors.toJS3
  match resolveXYZ args with
  | .error e => .error e
  | .ok (x, y, z) =>
    let r3 := r2._setUniform "uMaterialColor"
      (JSVal.arr [.num 1, .num 1, .num 1, .num 1])
    let r4 := r3._setUniform "uPointLightLocation[0]" (.arr [x, y, z])
    let r5 := { r4 with pointLightCount := r4.pointLightCount + 1 }
    let r6 := r5._setUniform "uPointLightCount"
      (.num (r5.pointLightCount : ℚ))
    .ok (r6._setUniform "uUseLighting" (.boolean true))

/-- The claim-side well-formedness predicate for trailing light
arguments, following the words of the spec: either the three trailing
arguments are numeric, or the last argument is vector-like, exposing x,
y and z fields. -/
def specWellFormedTrailing (args : List JSVal) : Bool :=
  let n : ℤ := (args.length : ℤ)
  (decide (3 ≤ args.length) && (jsIndex args (n - 3)).isNum
      && (jsIndex args (n - 2)).isNum && (jsIndex args (n - 1)).isNum)
    || (match jsLast args with
        | .obj fields =>
            (fields.lookup "x").isSome && (fields.lookup "y").isSome
              && (fields.lookup "z").isSome
        | _ => false)

/-- The argument shapes of p5.prototype.get: no arguments (whole
canvas), a pixel coordinate, or a region. -/
inductive GetArgs where
  | noArgs
  | xy (x y : ℚ)
  | xywh (x y w h : ℚ)

/-- What p5.prototype.get returns: the sentinel pixel array, a
one-by-one read from the drawing context, or a region copied into a new
p5.Image. -/
inductive GetResult where
  | pixel (r g b a : ℚ)
  | imageDataRead (x y w h : ℚ)
  | region (sx sy sw sh dw dh : ℚ)
  deriving DecidableEq

/-- The body of p5.prototype.get after argument defaulting: the
out-of-canvas guard (strict inequalities against width and height),
then the one-pixel read, otherwise the constrained region copy scaled
by the pixel density. -/
def getPixelRegion (width height pd : ℚ) (x y w h : ℚ) : GetResult :=
  if x > width ∨ y > height ∨ x < 0 ∨ y < 0 then .pixel 0 0 0 255
  else if w = 1 ∧ h = 1 then .imageDataRead x y w h
  else
    let dw := min w width
    let dh := min h height
    .region (x * pd) (y * pd) (dw * pd) (dh * pd) dw dh

/-- p5.prototype.get: with no arguments reads the whole canvas, with a
coordinate pair reads one pixel, with four arguments reads a region. -/
def get (width height pd : ℚ) : GetArgs → GetResult
  | .noArgs => getPixelRegion width height pd 0 0 width height
  | .xy x y => getPixelRegion width height pd x y 1 1
  | .xywh x y w h => getPixelRegion width height pd x y w h

/-- The claim-side out-of-bounds predicate: a pixel coordinate (x, y)
is outside a width-by-height canvas when it is not one of the pixels
0 <= x < width, 0 <= y < height. -/
def specOutsideCanvas (width height x y : ℚ) : Prop :=
  x < 0 ∨ y < 0 ∨ width ≤ x ∨ height ≤ y

/-- A WebGL context in which every stage compiles and links, reporting
the uniforms of the lighting shader of this repository the way
getActiveUniform does: each of the 8-slot light arrays appears once,
under its first element name with the [0] suffix and size 8 (the
Float32Array(24) comment in light.js records the 8 times vec3 layout),
and every scalar uniform under its plain name with size 1. -/
def demoGL : GLSpec :=
  { vertCompiles := fun _ => true
    fragCompiles := fun _ => true
    linkOk := fun _ _ => true
    shaderInfoLog := fun _ => ""
    introspectAttributes := fun _ _ => ["aPosition", "aNormal", "aTexCoord"]
    introspectUniforms := fun _ _ =>
      [("uProjectionMatrix", 1), ("uModelViewMatrix", 1),
       ("uNormalMatrix", 1), ("uMaterialColor", 1), ("uUseLighting", 1),
       ("uSpecular", 1), ("isTexture", 1), ("uSampler", 1),
       ("uAmbientColor[0]", 8), ("uAmbientLightCount", 1),
       ("uDirectionalColor[0]", 8), ("uLightingDirection[0]", 8),
       ("uDirectionalLightCount", 1),
       ("uPointLightColor[0]", 8), ("uPointLightLocation[0]", 8),
       ("uPointLightCount", 1)] }

/-- A context whose vertex stage fails to compile. -/
def glVertFail : GLSpec := { demoGL with vertCompiles := fun _ => false }

/-- A context whose link stage fails. -/
def glLinkFail : GLSpec := { demoGL with linkOk := fun _ _ => false }

/-- A renderer whose camera the caller has configured. -/
def rCustom : RendererGL :=
  { RendererGL.init 100 100 with curCamera := .custom }

/-- A renderer on the implicit default camera. -/
def rDefault : RendererGL :=
  { RendererGL.init 100 100 with curCamera := .defaultCam }

/-- The value of an ok result, with a fallback for the error case. -/
def exceptOkD {ε α : Type} (e : Except ε α) (d : α) : α :=
  match e with
  | .ok a => a
  | .error _ => d

/-- The arguments of the light call ambientLight(100, 100, 100). -/
def lightColorArgs : List JSVal := [.num 100, .num 100, .num 100]

/-- The arguments of directionalLight(250, 250, 250, 1, 0, 0). -/
def lightDirArgs : List JSVal :=
  [.num 250, .num 250, .num 250, .num 1, .num 0, .num 0]

/-- The malformed call directionalLight(250, 250, 250, "foo"): the
trailing argument is neither numeric nor vector-like. -/
def badLightArgs : List JSVal :=
  [.num 250, .num 250, .num 250, .str "foo"]

/-- A light call whose last argument is null. -/
def nullLightArgs : List JSVal := [.num 250, .nullv]

/-- A light call whose last argument is an object with no x, y or z
fields. -/
def emptyObjLightArgs : List JSVal :=
  [.num 250, .num 250, .num 250, .obj []]

/-- A fresh renderer right after the per-render-pass reset. -/
def c2Base : RendererGL :=
  (RendererGL.init 100 100)._update (fun _ => 1) 3

/-- The state after two ambientLight(100, 100, 100) calls following the
per-render-pass reset. -/
def c2State : RendererGL :=
  ambientLight demoGL (ambientLight demoGL c2Base lightColorArgs)
    lightColorArgs

/-- The renderer directionalLight(250, 250, 250, 1, 0, 0) yields from
the reset state. -/
def dirResultDemo : RendererGL :=
  exceptOkD (directionalLight demoGL c2Base lightDirArgs)
    (RendererGL.init 0 0)

/-- The renderer pointLight(250, 250, 250, 1, 0, 0) yields from the
reset state. -/
def pointResultDemo : RendererGL :=
  exceptOkD (pointLight demoGL c2Base lightDirArgs) (RendererGL.init 0 0)

end P5

namespace P5

theorem applyTransforms_nil (r : RendererGL) : applyTransforms r [] = r := rfl

theorem applyTransforms_cons (r : RendererGL) (t : TransformCall)
    (ts : List TransformCall) :
    applyTransforms r (t :: ts) = applyTransforms (applyTransform r t) ts := rfl

theorem applyTransform_eq (r : RendererGL) (t : TransformCall) :
    applyTransform r t
      = { r with uMVMatrix := (applyTransform r t).uMVMatrix } := by
  cases t <;> rfl

theorem applyTransforms_eq (calls : List TransformCall) (r : RendererGL) :
    applyTransforms r calls
      = { r with uMVMatrix := (applyTransforms r calls).uMVMatrix } := by
  induction calls generalizing r with
  | nil => rfl
  | cons t ts ih =>
    rw [applyTransforms_cons, ih (applyTransform r t)]
    rw [applyTransform_eq r t]

theorem useShader_eq (r : RendererGL) (p : Option ShaderProgram) :
    r._useShader p = { r with curShader := p } := by
  unfold RendererGL._useShader
  split
  · rename_i h; rw [h]
  · rfl

theorem getShader_blendEnabled (gl : GLSpec) (r : RendererGL)
    (v f : String) :
    (r._getShader gl v f).1.blendEnabled = r.blendEnabled := by
  by_cases h1 : r.materialInHash (v ++ "|" ++ f) = true <;>
  by_cases h2 : gl.vertCompiles v = false <;>
  by_cases h3 : gl.fragCompiles f = false <;>
  by_cases h4 : gl.linkOk v f = false <;>
  simp [RendererGL._getShader, RendererGL._initShaders, h1, h2, h3, h4]

theorem getShader_depthMaskOn (gl : GLSpec) (r : RendererGL)
    (v f : String) :
    (r._getShader gl v f).1.depthMaskOn = r.depthMaskOn := by
  by_cases h1 : r.materialInHash (v ++ "|" ++ f) = true <;>
  by_cases h2 : gl.vertCompiles v = false <;>
  by_cases h3 : gl.fragCompiles f = false <;>
  by_cases h4 : gl.linkOk v f = false <;>
  simp [RendererGL._getShader, RendererGL._initShaders, h1, h2, h3, h4]

theorem getShader_uniformStore (gl : GLSpec) (r : RendererGL)
    (v f : String) :
    (r._getShader gl v f).1.uniformStore = r.uniformStore := by
  by_cases h1 : r.materialInHash (v ++ "|" ++ f) = true <;>
  by_cases h2 : gl.vertCompiles v = false <;>
  by_cases h3 : gl.fragCompiles f = false <;>
  by_cases h4 : gl.linkOk v f = false <;>
  simp [RendererGL._getShader, RendererGL._initShaders, h1, h2, h3, h4]

theorem getShader_curShader (gl : GLSpec) (r : RendererGL)
    (v f : String) :
    (r._getShader gl v f).1.curShader = r.curShader := by
  by_cases h1 : r.materialInHash (v ++ "|" ++ f) = true <;>
  by_cases h2 : gl.vertCompiles v = false <;>
  by_cases h3 : gl.fragCompiles f = false <;>
  by_cases h4 : gl.linkOk v f = false <;>
  simp [RendererGL._getShader, RendererGL._initShaders, h1, h2, h3, h4]

theorem getShader_ambientLightCount (gl : GLSpec) (r : RendererGL)
    (v f : String) :
    (r._getShader gl v f).1.ambientLightCount = r.ambientLightCount := by
  by_cases h1 : r.materialInHash (v ++ "|" ++ f) = true <;>
  by_cases h2 : gl.vertCompiles v = false <;>
  by_cases h3 : gl.fragCompiles f = false <;>
  by_cases h4 : gl.linkOk v f = false <;>
  simp [RendererGL._getShader, RendererGL._initShaders, h1, h2, h3, h4]

theorem getShader_directionalLightCount (gl : GLSpec) (r : RendererGL)
    (v f : String) :
    (r._getShader gl v f).1.directionalLightCount
      = r.directionalLightCount := by
  by_cases h1 : r.materialInHash (v ++ "|" ++ f) = true <;>
  by_cases h2 : gl.vertCompiles v = false <;>
  by_cases h3 : gl.fragCompiles f = false <;>
  by_cases h4 : gl.linkOk v f = false <;>
  simp [RendererGL._getShader, RendererGL._initShaders, h1, h2, h3, h4]

theorem getShader_pointLightCount (gl : GLSpec) (r : RendererGL)
    (v f : String) :
    (r._getShader gl v f).1.pointLightCount = r.pointLightCount := by
  by_cases h1 : r.materialInHash (v ++ "|" ++ f) = true <;>
  by_cases h2 : gl.vertCompiles v = false <;>
  by_cases h3 : gl.fragCompiles f = false <;>
  by_cases h4 : gl.linkOk v f = false <;>
  simp [RendererGL._getShader, RendererGL._initShaders, h1, h2, h3, h4]

theorem setUniform_blendEnabled (r : RendererGL) (n : String) (d : JSVal) :
    (r._setUniform n d).blendEnabled = r.blendEnabled := by
  unfold RendererGL._setUniform
  split
  · rfl
  · split <;> rfl

theorem setUniform_depthMaskOn (r : RendererGL) (n : String) (d : JSVal) :
    (r._setUniform n d).depthMaskOn = r.depthMaskOn := by
  unfold RendererGL._setUniform
  split
  · rfl
  · split <;> rfl

theorem setUniform_curShader (r : RendererGL) (n : String) (d : JSVal) :
    (r._setUniform n d).curShader = r.curShader := by
  unfold RendererGL._setUniform
  split
  · rfl
  · split <;> rfl

theorem setUniform_counts (r : RendererGL) (n : String) (d : JSVal) :
    (r._setUniform n d).ambientLightCount = r.ambientLightCount ∧
    (r._setUniform n d).directionalLightCount = r.directionalLightCount ∧
    (r._setUniform n d).pointLightCount = r.pointLightCount := by
  unfold RendererGL._setUniform
  split
  · exact ⟨rfl, rfl, rfl⟩
  · split <;> exact ⟨rfl, rfl, rfl⟩

theorem lookup_filter_ne (st : List (String × JSVal)) (m n : String)
    (h : m ≠ n) :
    (st.filter (fun p => p.1 != n)).lookup m = st.lookup m := by
  have hmn : (m == n) = false := by simp [h]
  induction st with
  | nil => rfl
  | cons p ps ih =>
    by_cases hp : p.1 = n
    · rw [List.filter_cons_of_neg (by simp [hp])]
      simp [List.lookup, hp, hmn, ih]
    · rw [List.filter_cons_of_pos (by simp [hp])]
      cases hmk : (m == p.1) <;> simp [List.lookup, hmk, ih]

theorem lookup_storeSet_self (st : List (String × JSVal)) (k : String)
    (v : JSVal) :
    (storeSet st k v).lookup k = some v := by
  simp [storeSet, List.lookup]

theorem lookup_storeSet_ne (st : List (String × JSVal)) (k : String)
    (v : JSVal) (m : String) (h : m ≠ k) :
    (storeSet st k v).lookup m = st.lookup m := by
  have hmk : (m == k) = false := by simp [h]
  simp [storeSet, List.lookup, hmk, lookup_filter_ne st m k h]

theorem setUniform_lookup_ne (r : RendererGL) (n : String) (d : JSVal)
    (m : String) (h : m ≠ n) :
    (r._setUniform n d).uniformStore.lookup m
      = r.uniformStore.lookup m := by
  unfold RendererGL._setUniform
  split
  · rfl
  · split
    · exact lookup_storeSet_ne _ _ _ _ h
    · rfl

theorem setUniform_lookup_self (r : RendererGL) (n : String) (d : JSVal)
    (sh : ShaderProgram) (hsh : r.curShader = some sh)
    (hmem : n ∈ sh.uniforms) :
    (r._setUniform n d).uniformStore.lookup n = some d := by
  unfold RendererGL._setUniform
  rw [hsh]
  simp only [hmem, if_true]
  exact lookup_storeSet_self _ _ _

theorem fill_blendEnabled_eq (gl : GLSpec) (r : RendererGL) (v1 : ℚ)
    (v2 v3 a : Option ℚ) :
    (RendererGL.fill gl r v1 v2 v3 a).blendEnabled
      = (r._applyColorBlend v1 v2 v3 a).1.blendEnabled := by
  unfold RendererGL.fill
  dsimp only
  split
  · rw [useShader_eq]
    exact getShader_blendEnabled gl _ _ _
  · rw [setUniform_blendEnabled, useShader_eq]
    exact getShader_blendEnabled gl _ _ _

theorem fill_depthMaskOn_eq (gl : GLSpec) (r : RendererGL) (v1 : ℚ)
    (v2 v3 a : Option ℚ) :
    (RendererGL.fill gl r v1 v2 v3 a).depthMaskOn
      = (r._applyColorBlend v1 v2 v3 a).1.depthMaskOn := by
  unfold RendererGL.fill
  dsimp only
  split
  · rw [useShader_eq]
    exact getShader_depthMaskOn gl _ _ _
  · rw [setUniform_depthMaskOn, useShader_eq]
    exact getShader_depthMaskOn gl _ _ _

/-- Claim C1: for every renderer state, every shared-stack contents and
every sequence of transform calls made in between, push followed by pop
restores the model-view matrix to equality with its pre-push value; and
push and pop themselves change no renderer state other than the
model-view matrix and the shared save stack (push returns the renderer
unchanged; pop replaces only the model-view matrix; in particular the
projection matrix, fill color, light counters and uniform state survive
the whole push-transform-pop round trip). -/
theorem push_pop_restores_modelview (stack : List Mat4) (r : RendererGL)
    (calls : List TransformCall) :
    (RendererGL.push stack r).2 = r ∧
    RendererGL.pop (RendererGL.push stack r).1
        (applyTransforms (RendererGL.push stack r).2 calls)
      = .ok (stack, { applyTransforms r calls with uMVMatrix := r.uMVMatrix }) ∧
    (applyTransforms r calls).uPMatrix = r.uPMatrix ∧
    (applyTransforms r calls).ambientLightCount = r.ambientLightCount ∧
    (applyTransforms r calls).directionalLightCount = r.directionalLightCount ∧
    (applyTransforms r calls).pointLightCount = r.pointLightCount ∧
    (applyTransforms r calls).curFillColor = r.curFillColor ∧
    (applyTransforms r calls).uniformStore = r.uniformStore := by
  refine ⟨rfl, rfl, ?_, ?_, ?_, ?_, ?_, ?_⟩ <;>
    rw [applyTransforms_eq calls r]

/-- Claim C3: pop on an empty shared stack always signals the matrix
stack underflow error (the source throws Error with message Invalid
popMatrix!); it never silently returns a renderer state. -/
theorem pop_empty_stack_underflow (r : RendererGL) :
    RendererGL.pop [] r = .error .matrixStackUnderflow := rfl

/-- Claim C4: for an id pair not yet in the material hash whose stages
compile and link, the first _getShader call compiles both stages and
links exactly once (the compile log grows by exactly the two stage ids
and the link log by the pair) and caches the introspected program; a
subsequent call with the identical pair returns the very same cached
handle and the very same state: no further compilation, linking or
introspection happens. -/
theorem shader_cache_compiles_once (gl : GLSpec) (r : RendererGL)
    (vertId fragId : String)
    (hnew : r.materialInHash (vertId ++ "|" ++ fragId) = false)
    (hv : gl.vertCompiles vertId = true)
    (hf : gl.fragCompiles fragId = true)
    (hl : gl.linkOk vertId fragId = true) :
    (r._getShader gl vertId fragId).2 = some (programOf gl vertId fragId) ∧
    (r._getShader gl vertId fragId).1.compileLog
      = r.compileLog ++ [vertId, fragId] ∧
    (r._getShader gl vertId fragId).1.linkLog
      = r.linkLog ++ [vertId ++ "|" ++ fragId] ∧
    ((r._getShader gl vertId fragId).1._getShader gl vertId fragId)
      = ((r._getShader gl vertId fragId).1,
         (r._getShader gl vertId fragId).2) := by
  simp only [RendererGL._getShader, RendererGL._initShaders, hnew, hv, hf, hl,
    Bool.false_eq_true, if_false, if_true, Bool.true_eq_false]
  simp [RendererGL.materialInHash, List.lookup, List.append_assoc]

/-- Claim C4 witness: the cache behavior at a concrete context, a fresh
renderer and the pair v, f. -/
theorem shader_cache_compiles_once_witness :
    ((RendererGL.init 100 100)._getShader demoGL "v" "f").2
      = some (programOf demoGL "v" "f") ∧
    ((RendererGL.init 100 100)._getShader demoGL "v" "f").1.compileLog
      = (RendererGL.init 100 100).compileLog ++ ["v", "f"] ∧
    ((RendererGL.init 100 100)._getShader demoGL "v" "f").1.linkLog
      = (RendererGL.init 100 100).linkLog ++ ["v" ++ "|" ++ "f"] ∧
    (((RendererGL.init 100 100)._getShader demoGL "v" "f").1._getShader
        demoGL "v" "f")
      = (((RendererGL.init 100 100)._getShader demoGL "v" "f").1,
         ((RendererGL.init 100 100)._getShader demoGL "v" "f").2) :=
  shader_cache_compiles_once demoGL (RendererGL.init 100 100) "v" "f"
    rfl rfl rfl rfl

/-- Claim C5 counterexample: with a context whose vertex stage fails to
compile, _getShader on a fresh renderer returns null rather than
surfacing an error value, and the cache does retain an entry for the
failed pair: materialInHash reports the pair present, with null stored
under its key.  This refutes the claim that the cache retains no entry
for a failed id pair. -/
theorem failed_compile_retained_in_cache :
    ((RendererGL.init 100 100)._getShader glVertFail "v" "f").2 = none ∧
    ((RendererGL.init 100 100)._getShader glVertFail "v" "f").1.materialInHash
        "v|f" = true ∧
    ((RendererGL.init 100 100)._getShader glVertFail "v" "f").1.mHash.lookup
        "v|f" = some none := by
  refine ⟨rfl, rfl, rfl⟩

/-- Claim C5 amended: compile failure is reported through an alert (the
diagnostic text is shown, nothing is thrown to the caller) and
_initShaders returns null, but _getShader still stores that null under
the id key, so materialInHash subsequently reports the pair present and
a repeated call returns null without recompiling; a link failure is
also only an alert and the (unverified) program is stored in the cache
anyway. -/
theorem failed_compile_cached_as_null (gl : GLSpec) (r : RendererGL)
    (vertId fragId : String)
    (hnew : r.materialInHash (vertId ++ "|" ++ fragId) = false) :
    (gl.vertCompiles vertId = false →
      (r._getShader gl vertId fragId).2 = none ∧
      (r._getShader gl vertId fragId).1.materialInHash
          (vertId ++ "|" ++ fragId) = true ∧
      (r._getShader gl vertId fragId).1.mHash.lookup
          (vertId ++ "|" ++ fragId) = some none ∧
      (r._getShader gl vertId fragId).1.alerts
        = r.alerts ++ ["Yikes! An error occurred compiling the shaders:"
            ++ gl.shaderInfoLog vertId] ∧
      ((r._getShader gl vertId fragId).1._getShader gl vertId fragId)
        = ((r._getShader gl vertId fragId).1, none)) ∧
    (gl.vertCompiles vertId = true → gl.fragCompiles fragId = false →
      (r._getShader gl vertId fragId).2 = none ∧
      (r._getShader gl vertId fragId).1.mHash.lookup
          (vertId ++ "|" ++ fragId) = some none ∧
      (r._getShader gl vertId fragId).1.alerts
        = r.alerts ++ ["Darn! An error occurred compiling the shaders:"
            ++ gl.shaderInfoLog fragId]) ∧
    (gl.vertCompiles vertId = true → gl.fragCompiles fragId = true →
        gl.linkOk vertId fragId = false →
      (r._getShader gl vertId fragId).2 = some (programOf gl vertId fragId) ∧
      (r._getShader gl vertId fragId).1.mHash.lookup
          (vertId ++ "|" ++ fragId)
        = some (some (programOf gl vertId fragId)) ∧
      (r._getShader gl vertId fragId).1.alerts
        = r.alerts ++ ["Snap! Error linking shader program"]) := by
  refine ⟨fun hv => ?_, fun hv hf => ?_, fun hv hf hl => ?_⟩
  · simp only [RendererGL._getShader, RendererGL._initShaders, hnew, hv]
    simp [RendererGL.materialInHash, List.lookup]
  · simp only [RendererGL._getShader, RendererGL._initShaders, hnew, hv, hf]
    simp [RendererGL.materialInHash, List.lookup]
  · simp only [RendererGL._getShader, RendererGL._initShaders, hnew, hv, hf, hl]
    simp [RendererGL.materialInHash, List.lookup]

/-- Claim C5 amended witness: the vertex-failure clause at a concrete
failing context, and the link-failure clause at a concrete context
whose link stage fails. -/
theorem failed_compile_cached_as_null_witness :
    (((RendererGL.init 100 100)._getShader glVertFail "v" "f").2 = none ∧
      ((RendererGL.init 100 100)._getShader glVertFail "v" "f").1.materialInHash
          ("v" ++ "|" ++ "f") = true ∧
      ((RendererGL.init 100 100)._getShader glVertFail "v" "f").1.mHash.lookup
          ("v" ++ "|" ++ "f") = some none ∧
      ((RendererGL.init 100 100)._getShader glVertFail "v" "f").1.alerts
        = (RendererGL.init 100 100).alerts
            ++ ["Yikes! An error occurred compiling the shaders:"
              ++ glVertFail.shaderInfoLog "v"] ∧
      (((RendererGL.init 100 100)._getShader glVertFail "v" "f").1._getShader
          glVertFail "v" "f")
        = (((RendererGL.init 100 100)._getShader glVertFail "v" "f").1,
           none)) ∧
    (((RendererGL.init 100 100)._getShader glLinkFail "v" "f").2
        = some (programOf glLinkFail "v" "f") ∧
      ((RendererGL.init 100 100)._getShader glLinkFail "v" "f").1.mHash.lookup
          ("v" ++ "|" ++ "f")
        = some (some (programOf glLinkFail "v" "f")) ∧
      ((RendererGL.init 100 100)._getShader glLinkFail "v" "f").1.alerts
        = (RendererGL.init 100 100).alerts
            ++ ["Snap! Error linking shader program"]) :=
  ⟨(failed_compile_cached_as_null glVertFail (RendererGL.init 100 100)
      "v" "f" rfl).1 rfl,
   (failed_compile_cached_as_null glLinkFail (RendererGL.init 100 100)
      "v" "f" rfl).2.2 rfl rfl rfl⟩

/-- Claim C6: on every fill call (and through the shared
_applyColorBlend branch every material-color call), a resolved
normalized alpha below 1 enables blending and disables depth-buffer
writes, and an alpha equal to 1 disables blending and enables depth
writes; the branch is taken afresh from the current arguments on every
call, whatever the previous state was. -/
theorem fill_alpha_blend (gl : GLSpec) (r : RendererGL) (v1 : ℚ)
    (v2 v3 a : Option ℚ) :
    ((resolveColor v1 v2 v3 a).a < 1 →
      (r._applyColorBlend v1 v2 v3 a).1.blendEnabled = true ∧
      (r._applyColorBlend v1 v2 v3 a).1.depthMaskOn = false ∧
      (RendererGL.fill gl r v1 v2 v3 a).blendEnabled = true ∧
      (RendererGL.fill gl r v1 v2 v3 a).depthMaskOn = false) ∧
    ((resolveColor v1 v2 v3 a).a = 1 →
      (r._applyColorBlend v1 v2 v3 a).1.blendEnabled = false ∧
      (r._applyColorBlend v1 v2 v3 a).1.depthMaskOn = true ∧
      (RendererGL.fill gl r v1 v2 v3 a).blendEnabled = false ∧
      (RendererGL.fill gl r v1 v2 v3 a).depthMaskOn = true) := by
  constructor
  · intro h
    have hb : (r._applyColorBlend v1 v2 v3 a).1.blendEnabled = true := by
      unfold RendererGL._applyColorBlend
      dsimp only
      rw [if_pos h]
    have hd : (r._applyColorBlend v1 v2 v3 a).1.depthMaskOn = false := by
      unfold RendererGL._applyColorBlend
      dsimp only
      rw [if_pos h]
    exact ⟨hb, hd, (fill_blendEnabled_eq gl r v1 v2 v3 a).trans hb,
      (fill_depthMaskOn_eq gl r v1 v2 v3 a).trans hd⟩
  · intro h
    have hlt : ¬ (resolveColor v1 v2 v3 a).a < 1 := by
      rw [h]; exact lt_irrefl 1
    have hb : (r._applyColorBlend v1 v2 v3 a).1.blendEnabled = false := by
      unfold RendererGL._applyColorBlend
      dsimp only
      rw [if_neg hlt]
    have hd : (r._applyColorBlend v1 v2 v3 a).1.depthMaskOn = true := by
      unfold RendererGL._applyColorBlend
      dsimp only
      rw [if_neg hlt]
    exact ⟨hb, hd, (fill_blendEnabled_eq gl r v1 v2 v3 a).trans hb,
      (fill_depthMaskOn_eq gl r v1 v2 v3 a).trans hd⟩

/-- Claim C6 witness: the two branches at the literal calls of the
claim, fill(255, 0, 0, 128) enabling blending and disabling depth
writes, and fill(255, 0, 0, 255) doing the inverse. -/
theorem fill_alpha_blend_witness :
    ((RendererGL.fill demoGL (RendererGL.init 100 100)
        255 (some 0) (some 0) (some 128)).blendEnabled = true ∧
      (RendererGL.fill demoGL (RendererGL.init 100 100)
        255 (some 0) (some 0) (some 128)).depthMaskOn = false) ∧
    ((RendererGL.fill demoGL (RendererGL.init 100 100)
        255 (some 0) (some 0) (some 255)).blendEnabled = false ∧
      (RendererGL.fill demoGL (RendererGL.init 100 100)
        255 (some 0) (some 0) (some 255)).depthMaskOn = true) :=
  ⟨⟨((fill_alpha_blend demoGL (RendererGL.init 100 100)
        255 (some 0) (some 0) (some 128)).1
          (by norm_num [resolveColor, clamp255])).2.2.1,
    ((fill_alpha_blend demoGL (RendererGL.init 100 100)
        255 (some 0) (some 0) (some 128)).1
          (by norm_num [resolveColor, clamp255])).2.2.2⟩,
   ⟨((fill_alpha_blend demoGL (RendererGL.init 100 100)
        255 (some 0) (some 0) (some 255)).2
          (by norm_num [resolveColor, clamp255])).2.2.1,
    ((fill_alpha_blend demoGL (RendererGL.init 100 100)
        255 (some 0) (some 0) (some 255)).2
          (by norm_num [resolveColor, clamp255])).2.2.2⟩⟩

/-- Claim C7: perspective and ortho mark the camera as custom, and a
custom camera makes resize leave the projection matrix untouched;
whereas with the implicit default camera installed, resize recomputes
the default projection from the new width and height (in particular the
new aspect ratio w / h). -/
theorem custom_camera_survives_resize (tanQ : ℚ → ℚ) (piQ : ℚ)
    (r : RendererGL) (fovy aspect near far : Option ℚ)
    (left right bottom top onear ofar : Option ℚ) (w h : ℚ) :
    (perspective tanQ piQ r fovy aspect near far).curCamera = .custom ∧
    (ortho r left right bottom top onear ofar).curCamera = .custom ∧
    (r.curCamera = .custom →
      (r.resize tanQ piQ w h).uPMatrix = r.uPMatrix ∧
      (r.resize tanQ piQ w h).curCamera = .custom) ∧
    (r.curCamera = .defaultCam →
      (r.resize tanQ piQ w h).uPMatrix
        = defaultCameraProjection tanQ piQ w h) := by
  refine ⟨rfl, rfl, fun hc => ?_, fun hd => ?_⟩
  · unfold RendererGL.resize
    dsimp only
    rw [hc]
    exact ⟨rfl, rfl⟩
  · unfold RendererGL.resize
    dsimp only
    rw [hd]
    simp [RendererGL._setDefaultCamera]

/-- Claim C7 witness: the resize behavior at a concrete custom-camera
renderer and a concrete default-camera renderer, resized from 100 by
100 to 50 by 25. -/
theorem custom_camera_survives_resize_witness :
    ((rCustom.resize (fun q => q) 3 50 25).uPMatrix = rCustom.uPMatrix ∧
      (rCustom.resize (fun q => q) 3 50 25).curCamera = .custom) ∧
    (rDefault.resize (fun q => q) 3 50 25).uPMatrix
      = defaultCameraProjection (fun q => q) 3 50 25 :=
  ⟨(custom_camera_survives_resize (fun q => q) 3 rCustom
      none none none none none none none none none none 50 25).2.2.1 rfl,
   (custom_camera_survives_resize (fun q => q) 3 rDefault
      none none none none none none none none none none 50 25).2.2.2 rfl⟩

/-- Claim C10 counterexample: the pixel coordinate (100, 0) on a 100 by
100 canvas is outside the canvas (valid pixels have 0 <= x < 100), yet
get(100, 0) is not the sentinel [0, 0, 0, 255]: the guard of the source
uses strict comparisons against width and height, so the call falls
through to the image-data read.  This refutes the claim for the
boundary coordinates x = width and y = height. -/
theorem boundary_pixel_escapes_sentinel :
    specOutsideCanvas 100 100 100 0 ∧
    get 100 100 1 (.xy 100 0) = .imageDataRead 100 0 1 1 ∧
    GetResult.imageDataRead 100 0 1 1 ≠ .pixel 0 0 0 255 :=
  ⟨Or.inr (Or.inr (Or.inl le_rfl)), by norm_num [get, getPixelRegion],
   fun h => nomatch h⟩

/-- Claim C10 amended: get(x, y) returns the sentinel fully-opaque
black pixel [0, 0, 0, 255], raising no error, exactly when the
coordinate fails the guard of the source, x > width, y > height, x < 0
or y < 0; the boundary coordinates x = width and y = height pass the
guard and fall through to the image-data read instead. -/
theorem out_of_bounds_get_sentinel (width height pd x y : ℚ)
    (h : x > width ∨ y > height ∨ x < 0 ∨ y < 0) :
    get width height pd (.xy x y) = .pixel 0 0 0 255 := by
  show getPixelRegion width height pd x y 1 1 = GetResult.pixel 0 0 0 255
  unfold getPixelRegion
  rw [if_pos h]

/-- Claim C10 amended witness: get(-1, 0) on a 100 by 100 canvas is the
sentinel pixel. -/
theorem out_of_bounds_get_sentinel_witness :
    get 100 100 1 (.xy (-1) 0) = .pixel 0 0 0 255 :=
  out_of_bounds_get_sentinel 100 100 1 (-1) 0 (by norm_num)

theorem setUniform_ambientLightCount (r : RendererGL) (n : String)
    (d : JSVal) :
    (r._setUniform n d).ambientLightCount = r.ambientLightCount :=
  (setUniform_counts r n d).1

theorem setUniform_directionalLightCount (r : RendererGL) (n : String)
    (d : JSVal) :
    (r._setUniform n d).directionalLightCount = r.directionalLightCount :=
  (setUniform_counts r n d).2.1

theorem setUniform_pointLightCount (r : RendererGL) (n : String)
    (d : JSVal) :
    (r._setUniform n d).pointLightCount = r.pointLightCount :=
  (setUniform_counts r n d).2.2

theorem ambientLight_count (gl : GLSpec) (r : RendererGL)
    (args : List JSVal) :
    (ambientLight gl r args).ambientLightCount
      = r.ambientLightCount + 1 := by
  unfold ambientLight
  dsimp only
  rw [setUniform_ambientLightCount, setUniform_ambientLightCount]
  dsimp only
  rw [setUniform_ambientLightCount, setUniform_ambientLightCount,
    useShader_eq]
  dsimp only
  rw [getShader_ambientLightCount]

theorem ambientLight_lookup_ne (gl : GLSpec) (r : RendererGL)
    (args : List JSVal) (name : String)
    (h0 : name ≠ "uAmbientColor[0]") (h1 : name ≠ "uMaterialColor")
    (h2 : name ≠ "uAmbientLightCount") (h3 : name ≠ "uUseLighting") :
    (ambientLight gl r args).uniformStore.lookup name
      = r.uniformStore.lookup name := by
  unfold ambientLight
  dsimp only
  rw [setUniform_lookup_ne _ _ _ _ h3, setUniform_lookup_ne _ _ _ _ h2]
  dsimp only
  rw [setUniform_lookup_ne _ _ _ _ h1, setUniform_lookup_ne _ _ _ _ h0,
    useShader_eq]
  dsimp only
  rw [getShader_uniformStore]

theorem ambientLight_curShader (gl : GLSpec) (r : RendererGL)
    (args : List JSVal) :
    (ambientLight gl r args).curShader
      = (r._getShader gl "lightVert" "lightTextureFrag").2 := by
  unfold ambientLight
  dsimp only
  rw [setUniform_curShader, setUniform_curShader]
  dsimp only
  rw [setUniform_curShader, setUniform_curShader, useShader_eq]

theorem setUniform_nomem (r : RendererGL) (n : String) (d : JSVal)
    (sh : ShaderProgram) (hsh : r.curShader = some sh)
    (hmem : n ∉ sh.uniforms) :
    r._setUniform n d = r := by
  unfold RendererGL._setUniform
  rw [hsh]
  simp [hmem]

theorem ambientLight_array_write_noop (gl : GLSpec) (r : RendererGL)
    (args : List JSVal) (sh : ShaderProgram)
    (hsh : (ambientLight gl r args).curShader = some sh)
    (hmem : "uAmbientColor[0]" ∉ sh.uniforms) :
    (ambientLight gl r args).uniformStore.lookup "uAmbientColor[0]"
      = r.uniformStore.lookup "uAmbientColor[0]" := by
  have hp2 : (r._getShader gl "lightVert" "lightTextureFrag").2
      = some sh := by
    rw [← ambientLight_curShader gl r args]; exact hsh
  have hr1 : ((r._getShader gl "lightVert" "lightTextureFrag").1._useShader
      (r._getShader gl "lightVert" "lightTextureFrag").2).curShader
      = some sh := by
    rw [useShader_eq]; exact hp2
  unfold ambientLight
  dsimp only
  rw [setUniform_lookup_ne _ _ _ _ (by decide),
    setUniform_lookup_ne _ _ _ _ (by decide)]
  dsimp only
  rw [setUniform_lookup_ne _ _ _ _ (by decide)]
  rw [setUniform_nomem _ _ _ sh hr1 hmem]
  rw [useShader_eq]
  dsimp only
  rw [getShader_uniformStore]

theorem ambientLight_pushes_count (gl : GLSpec) (r : RendererGL)
    (args : List JSVal) (sh : ShaderProgram)
    (hsh : (ambientLight gl r args).curShader = some sh)
    (hmem : "uAmbientLightCount" ∈ sh.uniforms) :
    (ambientLight gl r args).uniformStore.lookup "uAmbientLightCount"
      = some (.num ((r.ambientLightCount + 1 : ℕ) : ℚ)) := by
  have hp2 : (r._getShader gl "lightVert" "lightTextureFrag").2
      = some sh := by
    rw [← ambientLight_curShader gl r args]; exact hsh
  unfold ambientLight
  dsimp only
  rw [setUniform_lookup_ne _ _ _ _ (by decide)]
  rw [setUniform_lookup_self _ _ _ sh
    (by try dsimp only
        rw [setUniform_curShader, setUniform_curShader, useShader_eq]
        exact hp2) hmem]
  try dsimp only
  rw [setUniform_ambientLightCount, setUniform_ambientLightCount,
    useShader_eq]
  try dsimp only
  rw [getShader_ambientLightCount]

theorem directionalLight_ok_spec (gl : GLSpec) (r : RendererGL)
    (args : List JSVal) (s1 : RendererGL)
    (h : directionalLight gl r args = .ok s1) :
    s1.directionalLightCount = r.directionalLightCount + 1 ∧
    (∀ name : String, name ≠ "uDirectionalColor[0]" →
      name ≠ "uMaterialColor" → name ≠ "uLightingDirection[0]" →
      name ≠ "uDirectionalLightCount" → name ≠ "uUseLighting" →
      s1.uniformStore.lookup name = r.uniformStore.lookup name) ∧
    (∀ sh : ShaderProgram, s1.curShader = some sh →
      "uDirectionalColor[0]" ∉ sh.uniforms →
      "uLightingDirection[0]" ∉ sh.uniforms →
      s1.uniformStore.lookup "uDirectionalColor[0]"
        = r.uniformStore.lookup "uDirectionalColor[0]" ∧
      s1.uniformStore.lookup "uLightingDirection[0]"
        = r.uniformStore.lookup "uLightingDirection[0]") := by
  unfold directionalLight at h
  dsimp only at h
  split at h
  · exact Except.noConfusion h
  · injection h with h
    subst h
    refine ⟨?_, ?_, ?_⟩
    · rw [setUniform_directionalLightCount,
        setUniform_directionalLightCount]
      dsimp only
      rw [setUniform_directionalLightCount,
        setUniform_directionalLightCount,
        setUniform_directionalLightCount, useShader_eq]
      dsimp only
      rw [getShader_directionalLightCount]
    · intro name h0 h1 h2 h3 h4
      rw [setUniform_lookup_ne _ _ _ _ h4, setUniform_lookup_ne _ _ _ _ h3]
      dsimp only
      rw [setUniform_lookup_ne _ _ _ _ h2, setUniform_lookup_ne _ _ _ _ h1,
        setUniform_lookup_ne _ _ _ _ h0, useShader_eq]
      dsimp only
      rw [getShader_uniformStore]
    · intro sh hsh hm1 hm2
      rw [setUniform_curShader, setUniform_curShader] at hsh
      dsimp only at hsh
      rw [setUniform_curShader, setUniform_curShader,
        setUniform_curShader] at hsh
      have hsh3 : ((((r._getShader gl "lightVert"
          "lightTextureFrag").1._useShader (r._getShader gl "lightVert"
          "lightTextureFrag").2)._setUniform "uDirectionalColor[0]"
            (resolveColorJS3 (jsIndex args 0) (jsIndex args 1)
              (jsIndex args 2)).toJS3)._setUniform "uMaterialColor"
            (JSVal.arr [JSVal.num 1, JSVal.num 1, JSVal.num 1,
              JSVal.num 1])).curShader = some sh := by
        rw [setUniform_curShader, setUniform_curShader]; exact hsh
      constructor
      · rw [setUniform_lookup_ne _ _ _ _ (by decide),
          setUniform_lookup_ne _ _ _ _ (by decide)]
        dsimp only
        rw [setUniform_lookup_ne _ _ _ _ (by decide),
          setUniform_lookup_ne _ _ _ _ (by decide)]
        rw [setUniform_nomem _ _ _ sh hsh hm1]
        rw [useShader_eq]
        dsimp only
        rw [getShader_uniformStore]
      · rw [setUniform_lookup_ne _ _ _ _ (by decide),
          setUniform_lookup_ne _ _ _ _ (by decide)]
        dsimp only
        rw [setUniform_nomem _ _ _ sh hsh3 hm2]
        rw [setUniform_lookup_ne _ _ _ _ (by decide),
          setUniform_lookup_ne _ _ _ _ (by decide)]
        rw [useShader_eq]
        dsimp only
        rw [getShader_uniformStore]

theorem pointLight_ok_spec (gl : GLSpec) (r : RendererGL)
    (args : List JSVal) (s2 : RendererGL)
    (h : pointLight gl r args = .ok s2) :
    s2.pointLightCount = r.pointLightCount + 1 ∧
    (∀ name : String, name ≠ "uPointLightColor[0]" →
      name ≠ "uMaterialColor" → name ≠ "uPointLightLocation[0]" →
      name ≠ "uPointLightCount" → name ≠ "uUseLighting" →
      s2.uniformStore.lookup name = r.uniformStore.lookup name) ∧
    (∀ sh : ShaderProgram, s2.curShader = some sh →
      "uPointLightColor[0]" ∉ sh.uniforms →
      "uPointLightLocation[0]" ∉ sh.uniforms →
      s2.uniformStore.lookup "uPointLightColor[0]"
        = r.uniformStore.lookup "uPointLightColor[0]" ∧
      s2.uniformStore.lookup "uPointLightLocation[0]"
        = r.uniformStore.lookup "uPointLightLocation[0]") := by
  unfold pointLight at h
  dsimp only at h
  split at h
  · exact Except.noConfusion h
  · injection h with h
    subst h
    refine ⟨?_, ?_, ?_⟩
    · rw [setUniform_pointLightCount, setUniform_pointLightCount]
      dsimp only
      rw [setUniform_pointLightCount, setUniform_pointLightCount,
        setUniform_pointLightCount, useShader_eq]
      dsimp only
      rw [getShader_pointLightCount]
    · intro name h0 h1 h2 h3 h4
      rw [setUniform_lookup_ne _ _ _ _ h4, setUniform_lookup_ne _ _ _ _ h3]
      dsimp only
      rw [setUniform_lookup_ne _ _ _ _ h2, setUniform_lookup_ne _ _ _ _ h1,
        setUniform_lookup_ne _ _ _ _ h0, useShader_eq]
      dsimp only
      rw [getShader_uniformStore]
    · intro sh hsh hm1 hm2
      rw [setUniform_curShader, setUniform_curShader] at hsh
      dsimp only at hsh
      rw [setUniform_curShader, setUniform_curShader,
        setUniform_curShader] at hsh
      have hsh3 : ((((r._getShader gl "lightVert"
          "lightTextureFrag").1._useShader (r._getShader gl "lightVert"
          "lightTextureFrag").2)._setUniform "uPointLightColor[0]"
            (resolveColorJS3 (jsIndex args 0) (jsIndex args 1)
              (jsIndex args 2)).toJS3)._setUniform "uMaterialColor"
            (JSVal.arr [JSVal.num 1, JSVal.num 1, JSVal.num 1,
              JSVal.num 1])).curShader = some sh := by
        rw [setUniform_curShader, setUniform_curShader]; exact hsh
      constructor
      · rw [setUniform_lookup_ne _ _ _ _ (by decide),
          setUniform_lookup_ne _ _ _ _ (by decide)]
        dsimp only
        rw [setUniform_lookup_ne _ _ _ _ (by decide),
          setUniform_lookup_ne _ _ _ _ (by decide)]
        rw [setUniform_nomem _ _ _ sh hsh hm1]
        rw [useShader_eq]
        dsimp only
        rw [getShader_uniformStore]
      · rw [setUniform_lookup_ne _ _ _ _ (by decide),
          setUniform_lookup_ne _ _ _ _ (by decide)]
        dsimp only
        rw [setUniform_nomem _ _ _ sh hsh3 hm2]
        rw [setUniform_lookup_ne _ _ _ _ (by decide),
          setUniform_lookup_ne _ _ _ _ (by decide)]
        rw [useShader_eq]
        dsimp only
        rw [getShader_uniformStore]

/-- Claim C2 counterexample: starting from the per-render-pass reset,
two ambientLight calls leave the counter at 2 while no entry of the
ambient color uniform array has been written at all: the hard-coded
write to the indexed name uAmbientColor[0] misses the uniform map,
which _initShaders keys by the bare stripped name uAmbientColor, and
nothing writes the bare name either, so the slot names and the bare key
all hold nothing — while the scalar uniform uAmbientLightCount does
land and reads 2.  So the second call does not write the slot indexed
by the prior counter value (1), and the counter (2) does not equal the
number of light-uniform entries written (0). -/
theorem ambient_light_writes_no_slot :
    c2State.ambientLightCount = 2 ∧
    c2State.uniformStore.lookup "uAmbientColor[0]" = none ∧
    c2State.uniformStore.lookup "uAmbientColor[1]" = none ∧
    c2State.uniformStore.lookup "uAmbientColor" = none ∧
    c2State.uniformStore.lookup "uAmbientLightCount"
      = some (.num ((2 : ℕ) : ℚ)) :=
  ⟨rfl, rfl, rfl, rfl, rfl⟩

/-- Claim C2 amended: starting from the per-render-pass reset that
zeroes the counters, every ambientLight, directionalLight and
pointLight call increments the corresponding counter by exactly one and
pushes the new count (and the lighting flag) as scalar uniforms, but
the color and direction-or-position writes use hard-coded indexed
uniform names (uAmbientColor[0], uDirectionalColor[0],
uLightingDirection[0], uPointLightColor[0], uPointLightLocation[0])
that miss the uniform map — _initShaders keys every array uniform by
its bare name with the [0] suffix stripped — so they are silent no-ops:
no entry of any light uniform array is ever written, neither the slot
indexed by the counter value before the call nor any other; every
uniform name outside the fixed set a call writes also keeps its
previous value.  The counter therefore counts the calls made this pass,
not the number of light-uniform entries written. -/
theorem light_counter_without_array_write (gl : GLSpec) (r : RendererGL)
    (args : List JSVal) :
    (ambientLight gl r args).ambientLightCount
      = r.ambientLightCount + 1 ∧
    (∀ name : String, name ≠ "uAmbientColor[0]" →
      name ≠ "uMaterialColor" → name ≠ "uAmbientLightCount" →
      name ≠ "uUseLighting" →
      (ambientLight gl r args).uniformStore.lookup name
        = r.uniformStore.lookup name) ∧
    (∀ sh : ShaderProgram, (ambientLight gl r args).curShader = some sh →
      "uAmbientColor[0]" ∉ sh.uniforms →
      (ambientLight gl r args).uniformStore.lookup "uAmbientColor[0]"
        = r.uniformStore.lookup "uAmbientColor[0]") ∧
    (∀ sh : ShaderProgram, (ambientLight gl r args).curShader = some sh →
      "uAmbientLightCount" ∈ sh.uniforms →
      (ambientLight gl r args).uniformStore.lookup "uAmbientLightCount"
        = some (.num ((r.ambientLightCount + 1 : ℕ) : ℚ))) ∧
    (∀ s1 : RendererGL, directionalLight gl r args = .ok s1 →
      s1.directionalLightCount = r.directionalLightCount + 1 ∧
      (∀ name : String, name ≠ "uDirectionalColor[0]" →
        name ≠ "uMaterialColor" → name ≠ "uLightingDirection[0]" →
        name ≠ "uDirectionalLightCount" → name ≠ "uUseLighting" →
        s1.uniformStore.lookup name = r.uniformStore.lookup name) ∧
      (∀ sh : ShaderProgram, s1.curShader = some sh →
        "uDirectionalColor[0]" ∉ sh.uniforms →
        "uLightingDirection[0]" ∉ sh.uniforms →
        s1.uniformStore.lookup "uDirectionalColor[0]"
          = r.uniformStore.lookup "uDirectionalColor[0]" ∧
        s1.uniformStore.lookup "uLightingDirection[0]"
          = r.uniformStore.lookup "uLightingDirection[0]")) ∧
    (∀ s2 : RendererGL, pointLight gl r args = .ok s2 →
      s2.pointLightCount = r.pointLightCount + 1 ∧
      (∀ name : String, name ≠ "uPointLightColor[0]" →
        name ≠ "uMaterialColor" → name ≠ "uPointLightLocation[0]" →
        name ≠ "uPointLightCount" → name ≠ "uUseLighting" →
        s2.uniformStore.lookup name = r.uniformStore.lookup name) ∧
      (∀ sh : ShaderProgram, s2.curShader = some sh →
        "uPointLightColor[0]" ∉ sh.uniforms →
        "uPointLightLocation[0]" ∉ sh.uniforms →
        s2.uniformStore.lookup "uPointLightColor[0]"
          = r.uniformStore.lookup "uPointLightColor[0]" ∧
        s2.uniformStore.lookup "uPointLightLocation[0]"
          = r.uniformStore.lookup "uPointLightLocation[0]")) :=
  ⟨ambientLight_count gl r args,
   fun name h0 h1 h2 h3 =>
     ambientLight_lookup_ne gl r args name h0 h1 h2 h3,
   fun sh hsh hmem => ambientLight_array_write_noop gl r args sh hsh hmem,
   fun sh hsh hmem => ambientLight_pushes_count gl r args sh hsh hmem,
   fun s1 h => directionalLight_ok_spec gl r args s1 h,
   fun s2 h => pointLight_ok_spec gl r args s2 h⟩

/-- Claim C2 amended witness: from the reset state at concrete numeric
arguments, against the realizable light-shader introspection of demoGL:
the ambient counter becomes 1, neither the bare array name nor the
indexed slot name gains an entry, the scalar count uniform reads 1, and
the directional and point counters become 1 with the direction slot
name untouched. -/
theorem light_counter_without_array_write_witness :
    (ambientLight demoGL c2Base lightDirArgs).ambientLightCount
      = c2Base.ambientLightCount + 1 ∧
    (ambientLight demoGL c2Base lightDirArgs).uniformStore.lookup
        "uAmbientColor"
      = c2Base.uniformStore.lookup "uAmbientColor" ∧
    (ambientLight demoGL c2Base lightDirArgs).uniformStore.lookup
        "uAmbientColor[0]"
      = c2Base.uniformStore.lookup "uAmbientColor[0]" ∧
    (ambientLight demoGL c2Base lightDirArgs).uniformStore.lookup
        "uAmbientLightCount"
      = some (.num ((c2Base.ambientLightCount + 1 : ℕ) : ℚ)) ∧
    dirResultDemo.directionalLightCount
      = c2Base.directionalLightCount + 1 ∧
    dirResultDemo.uniformStore.lookup "uLightingDirection[0]"
      = c2Base.uniformStore.lookup "uLightingDirection[0]" ∧
    pointResultDemo.pointLightCount = c2Base.pointLightCount + 1 :=
  ⟨(light_counter_without_array_write demoGL c2Base lightDirArgs).1,
   (light_counter_without_array_write demoGL c2Base lightDirArgs).2.1
     "uAmbientColor" (by decide) (by decide) (by decide) (by decide),
   (light_counter_without_array_write demoGL c2Base lightDirArgs).2.2.1
     (programOf demoGL "lightVert" "lightTextureFrag") rfl (by decide),
   (light_counter_without_array_write demoGL c2Base
       lightDirArgs).2.2.2.1
     (programOf demoGL "lightVert" "lightTextureFrag") rfl (by decide),
   ((light_counter_without_array_write demoGL c2Base
       lightDirArgs).2.2.2.2.1 dirResultDemo rfl).1,
   (((light_counter_without_array_write demoGL c2Base
       lightDirArgs).2.2.2.2.1 dirResultDemo rfl).2.2
     (programOf demoGL "lightVert" "lightTextureFrag") rfl (by decide)
     (by decide)).2,
   ((light_counter_without_array_write demoGL c2Base
       lightDirArgs).2.2.2.2.2 pointResultDemo rfl).1⟩

/-- Claim C8 counterexample: directionalLight(250, 250, 250, "foo") and
pointLight(250, 250, 250, "foo") have trailing arguments that are
neither three numeric values nor a vector-like value exposing x, y and
z fields, yet both calls succeed instead of raising: the property
access "foo".x silently yields undefined in JavaScript. -/
theorem malformed_light_direction_accepted :
    specWellFormedTrailing badLightArgs = false ∧
    exceptIsOk (directionalLight demoGL (RendererGL.init 100 100)
        badLightArgs) = true ∧
    exceptIsOk (pointLight demoGL (RendererGL.init 100 100)
        badLightArgs) = true :=
  ⟨rfl, rfl, rfl⟩

/-- Claim C8 amended: directionalLight and pointLight raise (the
underlying TypeError of the property access, there is no dedicated
invalid-arguments error) exactly when the last argument is null or
undefined — including the zero-argument call; every other malformed
trailing argument is accepted: an object (even one without x, y or z
fields) and a string both produce a successful call whose direction
coordinates are the possibly-undefined member values. -/
theorem light_direction_resolution (gl : GLSpec) (r : RendererGL)
    (args : List JSVal) :
    ((jsLast args = .undefinedVal ∨ jsLast args = .nullv) →
      directionalLight gl r args = .error .typeError ∧
      pointLight gl r args = .error .typeError) ∧
    (∀ fields : List (String × JSVal), jsLast args = .obj fields →
      exceptIsOk (directionalLight gl r args) = true ∧
      exceptIsOk (pointLight gl r args) = true) ∧
    (∀ s0 : String, jsLast args = .str s0 →
      exceptIsOk (directionalLight gl r args) = true ∧
      exceptIsOk (pointLight gl r args) = true) := by
  refine ⟨fun h => ?_, fun fields h => ?_, fun s0 h => ?_⟩
  · rcases h with h | h <;>
      simp [directionalLight, pointLight, resolveXYZ, h, getMember,
        JSVal.isNum]
  · simp [directionalLight, pointLight, resolveXYZ, h, getMember,
      JSVal.isNum, exceptIsOk]
  · simp [directionalLight, pointLight, resolveXYZ, h, getMember,
      JSVal.isNum, exceptIsOk]

/-- Claim C8 amended witness: the null last argument raises the
TypeError for both light functions, while the object without fields and
the string are accepted. -/
theorem light_direction_resolution_witness :
    (directionalLight demoGL (RendererGL.init 100 100) nullLightArgs
        = .error .typeError ∧
      pointLight demoGL (RendererGL.init 100 100) nullLightArgs
        = .error .typeError) ∧
    (exceptIsOk (directionalLight demoGL (RendererGL.init 100 100)
        emptyObjLightArgs) = true ∧
      exceptIsOk (pointLight demoGL (RendererGL.init 100 100)
        emptyObjLightArgs) = true) ∧
    (exceptIsOk (directionalLight demoGL (RendererGL.init 100 100)
        badLightArgs) = true ∧
      exceptIsOk (pointLight demoGL (RendererGL.init 100 100)
        badLightArgs) = true) :=
  ⟨(light_direction_resolution demoGL (RendererGL.init 100 100)
      nullLightArgs).1 (Or.inr rfl),
   (light_direction_resolution demoGL (RendererGL.init 100 100)
      emptyObjLightArgs).2.1 [] rfl,
   (light_direction_resolution demoGL (RendererGL.init 100 100)
      badLightArgs).2.2 "foo" rfl⟩

/-- Claim C9: the model-view matrix save stack is module-level state
shared by every renderer instance: a push on renderer a followed by a
pop on renderer b succeeds (no underflow on behalf of b) and installs
the matrix a pushed as the model-view matrix of b. -/
theorem shared_stack_cross_instance (stack : List Mat4)
    (a b : RendererGL) :
    RendererGL.pop (RendererGL.push stack a).1 b
      = .ok (stack, { b with uMVMatrix := a.uMVMatrix }) := rfl

end P5
